import Mathlib

/-!
Verification of the grade-report parsing core of `src/parser.py`
(functions `extract_tables`, `table_to_df`, `df_to_object`, `parse`).

The embedding works at the level the code works at:

* a source document is represented by its ordered list of table rows
  (the result of `soup.find_all("tr")`); each row is a list of cells,
  a cell carrying its text, its colspan and whether it has the
  `bigheader` class;
* `pd.read_html` on a single table is modelled as colspan expansion
  (a cell spanning n columns contributes its text n times, as pandas
  does), column-count inference (the widest expanded row), and padding
  of shorter rows with missing values; assigning the six column names
  raises (ValueError) exactly when the inferred column count is not
  six, which is the ShapeError of the design;
* DataFrame cells are `Option String` (`none` is pandas NaN padding);
  pandas per-column numeric dtype conversion is not modelled, cells
  keep their source text;
* Python exceptions escaping a function are modelled by `Except`
  error results;
* the code only consumes `re.findall(r"\d\.\d{1,2}", s)` through its
  first element and its truthiness, so the regex engine is embedded as
  the leftmost match of that pattern (`\d` is matched as a decimal
  digit, the relevant case for ASCII input).
-/

namespace Gaps

/-- One `td` cell of a source row: its text, its colspan attribute and
whether it carries the `bigheader` class (the new-course marker used by
`extract_tables`). -/
structure Cell where
  text : String
  colspan : Nat := 1
  bigheader : Bool := false
deriving Repr, DecidableEq

/-- One `tr` row of the source document. -/
structure Tr where
  cells : List Cell
deriving Repr, DecidableEq

/-- A built table: rows of optional cell texts (`none` is a pandas NaN). -/
abbrev Df := List (List (Option String))

/-- Whether a row contains a `bigheader` cell, the test
`next_tr.find("td", {"class": "bigheader"})` of `extract_tables`
(src/parser.py line 100). -/
def isMarkerRow (tr : Tr) : Bool := tr.cells.any (fun c => c.bigheader)

/-- The lookahead loop of `extract_tables` (src/parser.py lines 96-108):
the current row is appended to the current group; if a next row exists and
is a marker row the current group is closed, and the last row always
closes the current group. -/
def groupRows : List Tr → List Tr → List (List Tr)
  | [], _ => []
  | [tr], cur => [cur ++ [tr]]
  | tr :: next :: rest, cur =>
    if isMarkerRow next then
      (cur ++ [tr]) :: groupRows (next :: rest) []
    else
      groupRows (next :: rest) (cur ++ [tr])

/-- Function `extract_tables` (src/parser.py lines 85-110): group the document
rows into per-course row groups. -/
def extract_tables (trs : List Tr) : List (List Tr) := groupRows trs []

/-- Colspan expansion of one row, as `pd.read_html` performs it: a cell
with colspan n contributes its text to n consecutive columns. -/
def expandCells (tr : Tr) : List (Option String) :=
  tr.cells.flatMap (fun c => List.replicate c.colspan (some c.text))

/-- The number of table columns one row contributes. -/
def rowWidth (tr : Tr) : Nat := (expandCells tr).length

/-- The column count `pd.read_html` infers for a row group: the widest
expanded row (0 for an empty group). -/
def inferredWidth (g : List Tr) : Nat := (g.map rowWidth).foldr max 0

/-- The failure of `table_to_df` (src/parser.py line 133): assigning the
six column names `["Header", "Date", "Description", "Mean", "Weight",
"Grade"]` raises when the DataFrame does not have exactly six columns.
An empty group ("no tables found") surfaces as an inferred width of 0. -/
inductive ShapeError where
  | wrongColumns (found : Nat)
deriving Repr, DecidableEq

/-- One DataFrame row built from a source row: its colspan expansion,
padded on the right with NaN up to the six-column width. -/
def buildRow (tr : Tr) : List (Option String) :=
  expandCells tr ++ List.replicate (6 - (expandCells tr).length) none

/-- The body of the `table_to_df` loop (src/parser.py lines 122-134) for
one row group: rebuild the rows as a table, read it back as a DataFrame
and name its six columns. -/
def table_to_df_one (g : List Tr) : Except ShapeError Df :=
  if inferredWidth g = 6 then .ok (g.map buildRow)
  else .error (.wrongColumns (inferredWidth g))

/-- Function `table_to_df` (src/parser.py lines 113-135): convert every group, the
first failure aborting the whole call (the exception propagates). -/
def table_to_df (gs : List (List Tr)) : Except ShapeError (List Df) :=
  gs.mapM table_to_df_one

/-- The regex engine anchored at one position: a match of
`\d\.\d{1,2}` starting at the head of the character list, together with
the unconsumed suffix. The quantifier `{1,2}` is greedy, so a second
fractional digit is taken when available. -/
def matchFloatAt : List Char → Option (List Char × List Char)
  | [] => none
  | [_] => none
  | [_, _] => none
  | [c1, c2, c3] =>
    if c1.isDigit && c2 == '.' && c3.isDigit then some ([c1, c2, c3], [])
    else none
  | c1 :: c2 :: c3 :: c4 :: rest2 =>
    if c1.isDigit && c2 == '.' && c3.isDigit then
      if c4.isDigit then some ([c1, c2, c3, c4], rest2)
      else some ([c1, c2, c3], c4 :: rest2)
    else none

/-- The leftmost match of `\d\.\d{1,2}` in a character list:
`re.findall(re_float, s)[0]` when the list of matches is nonempty. The
code reads `re.findall` only through its first element and its
truthiness, so the first match determines every use. -/
def findFirstFloat : List Char → Option (List Char)
  | [] => none
  | c :: cs =>
    match matchFloatAt (c :: cs) with
    | some (m, _) => some m
    | none => findFirstFloat cs

/-- Grade extraction from a header text (src/parser.py lines 152, 159,
164, 168): the first match of `re_float = r"\d\.\d{1,2}"`, or `None`
when there is no match. -/
def extractGrade (s : String) : Option String :=
  (findFirstFloat s.data).map (fun m => String.mk m)

/-- The shape named by the specification: exactly one digit, a literal
decimal point, then one or two digits. -/
def isFloatShape : List Char → Bool
  | [a, p, b] => a.isDigit && p == '.' && b.isDigit
  | [a, p, b, c] => a.isDigit && p == '.' && b.isDigit && c.isDigit
  | _ => false

/-- Cell access in a DataFrame row; a missing position reads as NaN. -/
def getCol (r : List (Option String)) (i : Nat) : Option String := r.getD i none

/-- The subheader test `df["Grade"] == "note"` (src/parser.py line 163)
on one row: the Grade column is column 5. A NaN Grade cell compares
unequal, as in pandas. -/
def isSubheaderRow (r : List (Option String)) : Bool := getCol r 5 == some "note"

/-- The rows selected by `df.loc[df["Grade"] == "note"]["Header"]`,
paired with their positional index, scanning from row index `i`. -/
def subsFrom : Nat → Df → List (Nat × Option String)
  | _, [] => []
  | i, r :: rs =>
    if isSubheaderRow r then (i, getCol r 0) :: subsFrom (i + 1) rs
    else subsFrom (i + 1) rs

/-- The series `subheaders` of `df_to_object` (src/parser.py line 163): index and
Header cell of every row whose Grade column equals "note", in document
order. -/
def subheadersOf (df : Df) : List (Nat × Option String) := subsFrom 0 df

/-- The drop `df.drop(columns=["Header"])` (src/parser.py line 172): the Header
column is column 0 of every row. `drop` returns a new frame. -/
def dropHeaderCol (df : Df) : Df := df.map (fun r => r.drop 1)

/-- The slice `df.iloc[a:b]`: the rows at positions `a, ..., b - 1`. -/
def sliceRows (a b : Nat) (df : Df) : Df := (df.take b).drop a

/-- The expression `header.split(" ")[0] if header else None` (line 157):
Python splits on the single space character, and the first field of a
nonempty string is its prefix up to the first space. -/
def courseOf (header : String) : Option String :=
  if header = "" then none
  else some (String.mk (header.data.takeWhile (fun c => c != ' ')))

/-- The output record of `df_to_object` (src/parser.py lines 138-181).
`lab_data = none` models the `"lab_data"` key being absent from the
returned dictionary; `lab_grade = none` models the key holding `None`. -/
structure CourseRecord where
  course : Option String
  grade : Option String
  course_grade : Option String
  lab_grade : Option String
  course_data : Df
  lab_data : Option Df
deriving Repr, DecidableEq

/-- The ways `df_to_object` fails instead of returning a record, in the
order the code can raise them: `df.iloc[0]` on an empty frame
(IndexError), a NaN row-0 Header fed to `.split` (AttributeError),
`subheaders.values[0]` with no subheader row (IndexError), and a NaN
subheader Header fed to `re.findall` (TypeError). The design
specification groups all of these under ExtractionError. -/
inductive ExtractError where
  | noHeaderRow
  | headerNotText
  | noSubheader
  | subheaderNotText
deriving Repr, DecidableEq

/-- The record built when no lab section is split off: the else branch
of `if lab_header` (src/parser.py lines 178-179), also reached when a
second subheader row exists but the grade pattern finds nothing in its
Header (then `lab_header` is the empty, falsy list). `course_data` is
every row after the first subheader row. -/
def recOne (df : Df) (header h0 : String) (i0 : Nat) : CourseRecord :=
  { course := courseOf header,
    grade := extractGrade header,
    course_grade := extractGrade h0,
    lab_grade := none,
    course_data := (dropHeaderCol df).drop (i0 + 1),
    lab_data := none }

/-- The record built when the lab section is split off (src/parser.py
lines 175-177): `course_data` is `df.iloc[i0 + 1 : i1]` and `lab_data`
is `df.iloc[i1 + 1 :]`, after the Header column is dropped. -/
def recTwo (df : Df) (header h0 h1 : String) (i0 i1 : Nat) : CourseRecord :=
  { course := courseOf header,
    grade := extractGrade header,
    course_grade := extractGrade h0,
    lab_grade := extractGrade h1,
    course_data := sliceRows (i0 + 1) i1 (dropHeaderCol df),
    lab_data := some ((dropHeaderCol df).drop (i1 + 1)) }

/-- Function `df_to_object` (src/parser.py lines 138-181). The match order
follows the order in which the code evaluates and can raise: row 0 and
its Header first, then the subheader rows, then the lab split decided by
the truthiness of `re.findall` on the second subheader Header. -/
def df_to_object (df : Df) : Except ExtractError CourseRecord :=
  match df.head? with
  | none => .error .noHeaderRow
  | some row0 =>
    match getCol row0 0 with
    | none => .error .headerNotText
    | some header =>
      match subheadersOf df with
      | [] => .error .noSubheader
      | (_, none) :: _ => .error .subheaderNotText
      | (i0, some h0) :: rest =>
        match rest with
        | [] => .ok (recOne df header h0 i0)
        | (_, none) :: _ => .error .subheaderNotText
        | (i1, some h1) :: _ =>
          match extractGrade h1 with
          | some _ => .ok (recTwo df header h0 h1 i0 i1)
          | none => .ok (recOne df header h0 i0)

/-- An error escaping the pipeline `parse` (src/parser.py lines 66-82):
either a table-shape failure from `table_to_df` or an extraction failure
from `df_to_object`. -/
inductive ParseError where
  | shape (e : ShapeError)
  | extract (e : ExtractError)
deriving Repr, DecidableEq

/-- Retag the error of an `Except`. -/
def exceptMapError {e1 e2 a : Type} (f : e1 → e2) : Except e1 a → Except e2 a
  | .ok x => .ok x
  | .error err => .error (f err)

/-- Equality of pipeline results is decidable, so that concrete runs can
be checked by evaluation. -/
instance {e a : Type} [DecidableEq e] [DecidableEq a] : DecidableEq (Except e a) := fun x y =>
  match x, y with
  | .ok v, .ok w =>
    if h : v = w then isTrue (by rw [h])
    else isFalse (fun hc => h (Except.ok.inj hc))
  | .ok v, .error f => isFalse (fun hc => Except.noConfusion hc)
  | .error f, .ok v => isFalse (fun hc => Except.noConfusion hc)
  | .error f, .error g =>
    if h : f = g then isTrue (by rw [h])
    else isFalse (fun hc => h (Except.error.inj hc))

/-- Function `parse` (src/parser.py lines 66-82): group the document rows, build
one DataFrame per group, extract one record per DataFrame. Any exception
in the loop propagates out. -/
def parse (trs : List Tr) : Except ParseError (List CourseRecord) := do
  let dfs ← exceptMapError ParseError.shape (table_to_df (extract_tables trs))
  dfs.mapM (fun df => exceptMapError ParseError.extract (df_to_object df))

/-- Whether an extraction attempt failed. -/
def isFailure : Except ExtractError CourseRecord → Bool
  | .error _ => true
  | .ok _ => false

/-- Heap model for the document mutation performed by `table_to_df`:
the state is the ordered list of row identities attached to the source
document. BeautifulSoup `PageElement.append` (src/parser.py line 127)
moves an element that already has a parent: it is extracted from the
source tree before being attached to the throwaway `<table>` tag, so
appending a document row removes it from the document. -/
def bsAppendMove (doc : List Nat) (rid : Nat) : List Nat :=
  doc.filter (fun r => r != rid)

/-- The effect of the `table_to_df` loop on the source document state:
each row of the group is appended to the new table in order, each append
detaching that row from the document. -/
def table_to_df_docRows (doc : List Nat) (group : List Nat) : List Nat :=
  group.foldl bsAppendMove doc

/-- Modelled from the spec: the leading whitespace-delimited token of a
text, the first maximal run of non-whitespace characters, or `none` when
the text holds no such run. This follows the wording of the
specification (section 4.3 step 1); the code is compared against it. -/
def leadingWhitespaceToken (s : String) : Option String :=
  match s.data.dropWhile Char.isWhitespace with
  | [] => none
  | c :: cs => some (String.mk ((c :: cs).takeWhile (fun ch => !ch.isWhitespace)))

/-- The Header cell of row 0 of a DataFrame, `df.iloc[0]["Header"]`. -/
def header0 (df : Df) : Option String :=
  match df.head? with
  | none => none
  | some r => getCol r 0

/-! Concrete inputs used to witness the theorems below on runs of the
extractor. The rows follow the shapes the code expects: a course header
row (Header text, course grade), subheader rows whose Grade column is
literally "note", and assessment rows with an empty Header column. -/

/-- A course header row: Header "MAT 4.5", no other cells populated. -/
def rowHeaderMAT : List (Option String) := [some "MAT 4.5", none, none, none, none, none]

/-- A course-work subheader row, Grade column "note". -/
def rowSubCours : List (Option String) :=
  [some "Cours 4.75", some "date", some "descriptif", some "moyenne", some "coef.", some "note"]

/-- A lab-work subheader row with a grade in its Header. -/
def rowSubLabo : List (Option String) :=
  [some "Labo 5.5", some "date", some "descriptif", some "moyenne", some "coef.", some "note"]

/-- A lab-work subheader row whose Header holds no grade-shaped token. -/
def rowSubLaboNone : List (Option String) :=
  [some "Labo note", some "date", some "descriptif", some "moyenne", some "coef.", some "note"]

/-- An assessment row. -/
def rowEntryA : List (Option String) :=
  [none, some "01.03", some "Test 1", some "4.1", some "1.0", some "4.5"]

/-- Another assessment row. -/
def rowEntryB : List (Option String) :=
  [none, some "02.03", some "TP 1", some "5.2", some "1.0", some "5.5"]

/-- A third assessment row. -/
def rowEntryQ : List (Option String) :=
  [none, some "05.03", some "Quiz", some "3.9", some "1.0", some "4.0"]

/-- A table with two subheader rows (positions 1 and 3), the second one
carrying a lab grade. -/
def exDfTwo : Df := [rowHeaderMAT, rowSubCours, rowEntryA, rowSubLabo, rowEntryB]

/-- The record the extractor produces on `exDfTwo`. -/
def exRecTwo : CourseRecord :=
  { course := some "MAT",
    grade := some "4.5",
    course_grade := some "4.75",
    lab_grade := some "5.5",
    course_data := [[some "01.03", some "Test 1", some "4.1", some "1.0", some "4.5"]],
    lab_data := some [[some "02.03", some "TP 1", some "5.2", some "1.0", some "5.5"]] }

/-- A table with exactly two subheader rows (positions 2 and 4), an
ordinary row at position 1 before the first subheader, and no
grade-shaped token in the second subheader Header. -/
def exDfNoMatch : Df :=
  [rowHeaderMAT, rowEntryQ, rowSubCours, rowEntryA, rowSubLaboNone, rowEntryB]

/-- The record the extractor produces on `exDfNoMatch`: no lab section,
and `course_data` runs from the row after the first subheader to the end
of the table, second subheader row included. -/
def exRecNoMatch : CourseRecord :=
  { course := some "MAT",
    grade := some "4.5",
    course_grade := some "4.75",
    lab_grade := none,
    course_data :=
      [[some "01.03", some "Test 1", some "4.1", some "1.0", some "4.5"],
       [some "date", some "descriptif", some "moyenne", some "coef.", some "note"],
       [some "02.03", some "TP 1", some "5.2", some "1.0", some "5.5"]],
    lab_data := none }

/-- A table with exactly one subheader row. -/
def exDfOne : Df := [rowHeaderMAT, rowSubCours, rowEntryA]

/-- The record the extractor produces on `exDfOne`. -/
def exRecOne : CourseRecord :=
  { course := some "MAT",
    grade := some "4.5",
    course_grade := some "4.75",
    lab_grade := none,
    course_data := [[some "01.03", some "Test 1", some "4.1", some "1.0", some "4.5"]],
    lab_data := none }

/-- A table with no subheader row at all. -/
def exDfNoSub : Df := [[some "ABC 4.0", none, none, none, none, some "4.0"]]

/-- A table whose row-0 Header contains a tab inside its leading
non-space run. -/
def exDfTab : Df :=
  [[some "A\tB 4.5", none, none, none, none, none], rowSubCours]

/-- The record the extractor produces on `exDfTab`: the course
identifier keeps the tab, because the code splits on the space character
only. -/
def exRecTab : CourseRecord :=
  { course := some "A\tB",
    grade := some "4.5",
    course_grade := some "4.75",
    lab_grade := none,
    course_data := [],
    lab_data := none }

/-- A table whose row-0 Header text is empty. -/
def exDfEmptyHeader : Df :=
  [[some "", none, none, none, none, none], rowSubCours]

/-- The record the extractor produces on `exDfEmptyHeader`: a null
course identifier and no error. -/
def exRecEmptyHeader : CourseRecord :=
  { course := none,
    grade := none,
    course_grade := some "4.75",
    lab_grade := none,
    course_data := [],
    lab_data := none }

/-- A row group whose rows collapse into six columns: a marker row with
one colspan-6 cell and an ordinary six-cell row. -/
def exGroup : List Tr :=
  [⟨[⟨"MAT 4.5", 6, true⟩]⟩,
   ⟨[⟨"", 1, false⟩, ⟨"01.03", 1, false⟩, ⟨"Test 1", 1, false⟩,
     ⟨"4.1", 1, false⟩, ⟨"1.0", 1, false⟩, ⟨"4.5", 1, false⟩]⟩]

/-! Theorems. -/

/-- The grouping loop preserves the row sequence: on a nonempty row
list, flattening the produced groups yields the accumulator followed by
the remaining rows. -/
theorem groupRows_flatten : ∀ (trs cur : List Tr), trs ≠ [] →
    (groupRows trs cur).flatten = cur ++ trs := by
  intro trs
  induction trs with
  | nil => intro cur h; exact absurd rfl h
  | cons tr rest ih =>
    intro cur _
    cases rest with
    | nil => simp [groupRows]
    | cons next rest2 =>
      rw [groupRows]
      by_cases hm : isMarkerRow next
      · rw [if_pos hm, List.flatten_cons, ih [] (by simp)]
        simp
      · rw [if_neg hm, ih (cur ++ [tr]) (by simp)]
        simp

/-- C1: concatenating the Row Grouper output groups, in order and row by
row, reproduces the input row sequence exactly; in particular no row is
dropped, duplicated or reordered, and every group is a contiguous run of
the input. -/
theorem extract_tables_concat (trs : List Tr) : (extract_tables trs).flatten = trs := by
  cases trs with
  | nil => rfl
  | cons tr rest => simpa using groupRows_flatten (tr :: rest) [] (by simp)

/-- Every member of a row group contributes at most the inferred column
count. -/
theorem rowWidth_le_inferredWidth (g : List Tr) (tr : Tr) (h : tr ∈ g) :
    rowWidth tr ≤ inferredWidth g := by
  unfold inferredWidth
  induction g with
  | nil => cases h
  | cons t ts ih =>
    rw [List.map_cons, List.foldr_cons]
    rcases List.mem_cons.mp h with rfl | hmem
    · exact le_max_left _ _
    · exact le_trans (ih hmem) (le_max_right _ _)

/-- A row no wider than six columns is padded to exactly six. -/
theorem buildRow_length (tr : Tr) (h : rowWidth tr ≤ 6) : (buildRow tr).length = 6 := by
  unfold buildRow
  unfold rowWidth at h
  rw [List.length_append, List.length_replicate]
  omega

/-- C4: the Table Builder output always has exactly six columns and one
row per input row, and on a row group whose rows do not collapse into a
six-column layout it fails with a ShapeError instead of producing a
table. -/
theorem table_builder_shape (g : List Tr) :
    (inferredWidth g = 6 →
      table_to_df_one g = .ok (g.map buildRow)
      ∧ (g.map buildRow).length = g.length
      ∧ ∀ r ∈ g.map buildRow, r.length = 6)
    ∧ (inferredWidth g ≠ 6 →
      table_to_df_one g = .error (.wrongColumns (inferredWidth g))) := by
  constructor
  · intro h6
    refine ⟨by simp [table_to_df_one, h6], by simp, ?_⟩
    intro r hr
    obtain ⟨tr, htr, rfl⟩ := List.mem_map.mp hr
    exact buildRow_length tr (h6 ▸ rowWidth_le_inferredWidth g tr htr)
  · intro h6
    simp [table_to_df_one, h6]

/-- C4 witness: on a concrete two-row group collapsing into six columns,
the builder succeeds with one table row per input row. -/
theorem table_builder_shape_witness :
    table_to_df_one exGroup = .ok (exGroup.map buildRow)
    ∧ (exGroup.map buildRow).length = exGroup.length :=
  ⟨((table_builder_shape exGroup).1 (by decide)).1,
   ((table_builder_shape exGroup).1 (by decide)).2.1⟩

/-- C8: a document with no table rows flows through the whole pipeline
and yields the empty record sequence, not a failure. -/
theorem parse_empty_document : parse [] = .ok [] := rfl

/-- The document effect of building one table: exactly the rows of the
group are detached from the source document, the other rows staying
attached in their original order. -/
theorem table_builder_document_effect (doc group : List Nat) :
    table_to_df_docRows doc group = doc.filter (fun r => decide (r ∉ group)) := by
  induction group generalizing doc with
  | nil => simp [table_to_df_docRows]
  | cons g gs ih =>
    have hstep : table_to_df_docRows doc (g :: gs) = table_to_df_docRows (bsAppendMove doc g) gs := rfl
    rw [hstep, ih, bsAppendMove, List.filter_filter]
    apply List.filter_congr
    intro a _
    by_cases h1 : a = g <;> by_cases h2 : a ∈ gs <;> simp [h1, h2]

/-- C9 counterexample: the Table Builder does not leave the rows of the
source document unchanged. Building the one-row group `[0]` out of a
document holding rows `0, 1, 2` detaches row 0 from the document:
BeautifulSoup append moves an already-parented element. -/
theorem document_mutation_counterexample :
    table_to_df_docRows [0, 1, 2] [0] = [1, 2]
    ∧ ([1, 2] : List Nat) ≠ [0, 1, 2] := by decide

/-- An anchored match of the pattern produces a match of the shape
digit, point, one or two digits, consuming a prefix of the input. -/
theorem matchFloatAt_some (cs m rest : List Char)
    (h : matchFloatAt cs = some (m, rest)) :
    isFloatShape m = true ∧ cs = m ++ rest := by
  match cs with
  | [] => simp [matchFloatAt] at h
  | [c1] => simp [matchFloatAt] at h
  | [c1, c2] => simp [matchFloatAt] at h
  | [c1, c2, c3] =>
    rw [matchFloatAt] at h
    by_cases hcond : (c1.isDigit && c2 == '.' && c3.isDigit) = true
    · rw [if_pos hcond] at h
      obtain ⟨⟨ha, hb⟩, hc⟩ := by simpa only [Bool.and_eq_true] using hcond
      simp only [Option.some.injEq, Prod.mk.injEq] at h
      obtain ⟨rfl, rfl⟩ := h
      exact ⟨by simp [isFloatShape, ha, hb, hc], rfl⟩
    · rw [if_neg hcond] at h
      cases h
  | c1 :: c2 :: c3 :: c4 :: rest2 =>
    rw [matchFloatAt] at h
    by_cases hcond : (c1.isDigit && c2 == '.' && c3.isDigit) = true
    · rw [if_pos hcond] at h
      obtain ⟨⟨ha, hb⟩, hc⟩ := by simpa only [Bool.and_eq_true] using hcond
      by_cases h4 : c4.isDigit = true
      · rw [if_pos h4] at h
        simp only [Option.some.injEq, Prod.mk.injEq] at h
        obtain ⟨rfl, rfl⟩ := h
        exact ⟨by simp [isFloatShape, ha, hb, hc, h4], rfl⟩
      · rw [if_neg h4] at h
        simp only [Option.some.injEq, Prod.mk.injEq] at h
        obtain ⟨rfl, rfl⟩ := h
        exact ⟨by simp [isFloatShape, ha, hb, hc], rfl⟩
    · rw [if_neg hcond] at h
      cases h

/-- The anchored matcher accepts a whole token exactly when the token
has the shape one digit, a point, then one or two digits. -/
theorem matchFloatAt_full (t : List Char) :
    matchFloatAt t = some (t, []) ↔ isFloatShape t = true := by
  constructor
  · intro h
    exact (matchFloatAt_some t t [] h).1
  · intro h
    match t with
    | [] => simp [isFloatShape] at h
    | [a] => simp [isFloatShape] at h
    | [a, b] => simp [isFloatShape] at h
    | [a, p, b] =>
      simp only [isFloatShape, Bool.and_eq_true] at h
      obtain ⟨⟨h1, h2⟩, h3⟩ := h
      simp [matchFloatAt, h1, h2, h3]
    | [a, p, b, c] =>
      simp only [isFloatShape, Bool.and_eq_true] at h
      obtain ⟨⟨⟨h1, h2⟩, h3⟩, h4⟩ := h
      simp [matchFloatAt, h1, h2, h3, h4]
    | a :: b :: c :: d :: e :: t5 => simp [isFloatShape] at h

/-- A token of the pattern shape still matches with anything appended
after it (the second fractional digit is taken greedily when the suffix
starts with a digit, but a match is produced either way). -/
theorem matchFloatAt_append_of_shape (m b : List Char) (h : isFloatShape m = true) :
    matchFloatAt (m ++ b) ≠ none := by
  match m with
  | [] => simp [isFloatShape] at h
  | [a] => simp [isFloatShape] at h
  | [a, p] => simp [isFloatShape] at h
  | [a, p, c] =>
    simp only [isFloatShape, Bool.and_eq_true] at h
    obtain ⟨⟨h1, h2⟩, h3⟩ := h
    cases b with
    | nil => simp [matchFloatAt, h1, h2, h3]
    | cons c4 b2 =>
      simp only [List.cons_append, List.nil_append, matchFloatAt, h1, h2, h3]
      by_cases h4 : c4.isDigit = true <;> simp [h4]
  | [a, p, c, d] =>
    simp only [isFloatShape, Bool.and_eq_true] at h
    obtain ⟨⟨⟨h1, h2⟩, h3⟩, h4⟩ := h
    simp [matchFloatAt, h1, h2, h3, h4]
  | a :: b1 :: c :: d :: e :: t5 => simp [isFloatShape] at h

/-- The scan of `findFirstFloat` fails exactly when the anchored matcher
fails at every position of the text. -/
theorem findFirstFloat_eq_none_iff (cs : List Char) :
    findFirstFloat cs = none ↔ ∀ i, matchFloatAt (cs.drop i) = none := by
  induction cs with
  | nil =>
    simp only [findFirstFloat, List.drop_nil]
    simp [matchFloatAt]
  | cons c cs ih =>
    constructor
    · intro h i
      rw [findFirstFloat] at h
      cases hm : matchFloatAt (c :: cs) with
      | some p =>
        rw [hm] at h
        cases p
        simp at h
      | none =>
        rw [hm] at h
        cases i with
        | zero => simpa using hm
        | succ j =>
          simpa using (ih.mp h) j
    · intro h
      rw [findFirstFloat]
      have h0 : matchFloatAt (c :: cs) = none := by simpa using h 0
      rw [h0]
      exact ih.mpr (fun i => by simpa using h (i + 1))

/-- A text has a substring of the pattern shape exactly when the
anchored matcher succeeds somewhere in it. -/
theorem exists_shape_sub_iff (cs : List Char) :
    (∃ a m b, cs = a ++ m ++ b ∧ isFloatShape m = true) ↔
      ¬ (∀ i, matchFloatAt (cs.drop i) = none) := by
  constructor
  · rintro ⟨a, m, b, rfl, hm⟩ hall
    have hdrop := hall a.length
    rw [List.append_assoc, List.drop_left] at hdrop
    exact matchFloatAt_append_of_shape m b hm hdrop
  · intro h
    obtain ⟨i, hi⟩ := not_forall.mp h
    cases hm : matchFloatAt (cs.drop i) with
    | none => exact absurd hm hi
    | some p =>
      obtain ⟨m, rest⟩ := p
      obtain ⟨hshape, heq⟩ := matchFloatAt_some _ _ _ hm
      refine ⟨cs.take i, m, rest, ?_, hshape⟩
      rw [List.append_assoc, ← heq, List.take_append_drop]

/-- C5: grade extraction is driven by the pattern of exactly one digit,
a literal decimal point, then one or two digits. The extraction result
is null exactly when no substring of the text has that shape (and the
extraction is a total function, so a missing grade is not a failure);
the pattern accepts a whole token only in that shape; and it never
matches at a grade token that starts with two integer digits. -/
theorem grade_pattern_spec (s : String) :
    (extractGrade s = none ↔ ∀ a m b, s.data = a ++ m ++ b → isFloatShape m = false)
    ∧ (∀ t : List Char, matchFloatAt t = some (t, []) ↔ isFloatShape t = true)
    ∧ (∀ d1 d2 : Char, ∀ rest : List Char, d1.isDigit = true → d2.isDigit = true →
        matchFloatAt (d1 :: d2 :: rest) = none) := by
  refine ⟨?_, matchFloatAt_full, ?_⟩
  · have h1 : extractGrade s = none ↔ findFirstFloat s.data = none := by
      unfold extractGrade
      cases findFirstFloat s.data <;> simp
    rw [h1, findFirstFloat_eq_none_iff]
    constructor
    · intro hall a m b heq
      by_contra hsh
      have hex : ∃ a m b, s.data = a ++ m ++ b ∧ isFloatShape m = true :=
        ⟨a, m, b, heq, by simpa using hsh⟩
      exact (exists_shape_sub_iff s.data).mp hex hall
    · intro hnone
      by_contra hnall
      obtain ⟨a, m, b, heq, hm⟩ := (exists_shape_sub_iff s.data).mpr hnall
      have := hnone a m b heq
      rw [this] at hm
      cases hm
  · intro d1 d2 rest h1 h2
    have hne : d2 ≠ '.' := by
      intro hd
      rw [hd] at h2
      cases h2
    cases rest with
    | nil => rfl
    | cons c3 r2 => cases r2 <;> simp [matchFloatAt, hne]

/-- C5 witness: the pattern refuses a token with two integer digits when
anchored at its start, and accepts a concrete one-digit grade token in
full. -/
theorem grade_pattern_spec_witness :
    matchFloatAt ['1', '2', '.', '5'] = none
    ∧ matchFloatAt ['4', '.', '5'] = some (['4', '.', '5'], []) :=
  ⟨(grade_pattern_spec "").2.2 '1' '2' ['.', '5'] (by decide) (by decide),
   ((grade_pattern_spec "").2.1 ['4', '.', '5']).mpr (by decide)⟩

/-- Subheader scanning from index `i` only yields indices at or past
`i`. -/
theorem subsFrom_le (l : Df) : ∀ (i : Nat) (p : Nat × Option String),
    p ∈ subsFrom i l → i ≤ p.1 := by
  induction l with
  | nil =>
    intro i p hp
    simp [subsFrom] at hp
  | cons row rs ih =>
    intro i p hp
    rw [subsFrom] at hp
    by_cases hs : isSubheaderRow row
    · rw [if_pos hs] at hp
      rcases List.mem_cons.mp hp with rfl | hmem
      · exact le_refl i
      · exact Nat.le_of_succ_le (ih (i + 1) p hmem)
    · rw [if_neg hs] at hp
      exact Nat.le_of_succ_le (ih (i + 1) p hp)

/-- The subheader list is strictly increasing in its indices: the head
index is below every later index. -/
theorem subsFrom_cons_lt (l : Df) : ∀ (i : Nat) (a : Nat × Option String)
    (rest : List (Nat × Option String)), subsFrom i l = a :: rest →
    ∀ p ∈ rest, a.1 < p.1 := by
  induction l with
  | nil =>
    intro i a rest h
    simp [subsFrom] at h
  | cons row rs ih =>
    intro i a rest h p hp
    rw [subsFrom] at h
    by_cases hs : isSubheaderRow row
    · rw [if_pos hs] at h
      injection h with h1 h2
      subst h2
      have hle := subsFrom_le rs (i + 1) p hp
      rw [← h1]
      exact Nat.lt_of_succ_le hle
    · rw [if_neg hs] at h
      exact ih (i + 1) a rest h p hp

/-- Inversion of a successful extraction: a record comes out of
`df_to_object` only through one of the three success branches of the
code, and the subheader list, the row-0 Header and the produced record
are pinned down accordingly. -/
theorem df_to_object_cases (df : Df) (r : CourseRecord)
    (hok : df_to_object df = .ok r) :
    ∃ row0 header, df.head? = some row0 ∧ getCol row0 0 = some header ∧
      ∃ i0 h0 rest, subheadersOf df = (i0, some h0) :: rest ∧
        ((rest = [] ∧ r = recOne df header h0 i0)
         ∨ ∃ i1 h1 rest2, rest = (i1, some h1) :: rest2 ∧
             (((extractGrade h1).isSome = true ∧ r = recTwo df header h0 h1 i0 i1)
              ∨ (extractGrade h1 = none ∧ r = recOne df header h0 i0))) := by
  rw [df_to_object] at hok
  cases hhd : df.head? with
  | none =>
    rw [hhd] at hok
    simp at hok
  | some row0 =>
    rw [hhd] at hok
    dsimp only [] at hok
    cases hc : getCol row0 0 with
    | none =>
      rw [hc] at hok
      simp at hok
    | some header =>
      rw [hc] at hok
      dsimp only [] at hok
      refine ⟨row0, header, rfl, hc, ?_⟩
      cases hs : subheadersOf df with
      | nil =>
        rw [hs] at hok
        simp at hok
      | cons p rest =>
        rw [hs] at hok
        obtain ⟨i0, h0q⟩ := p
        cases h0q with
        | none => simp at hok
        | some h0 =>
          dsimp only [] at hok
          refine ⟨i0, h0, rest, rfl, ?_⟩
          cases rest with
          | nil =>
            dsimp only [] at hok
            simp only [Except.ok.injEq] at hok
            exact Or.inl ⟨rfl, hok.symm⟩
          | cons q rest2 =>
            obtain ⟨i1, h1q⟩ := q
            cases h1q with
            | none => simp at hok
            | some h1 =>
              dsimp only [] at hok
              refine Or.inr ⟨i1, h1, rest2, rfl, ?_⟩
              cases hg : extractGrade h1 with
              | some g =>
                rw [hg] at hok
                simp only [Except.ok.injEq] at hok
                exact Or.inl ⟨rfl, hok.symm⟩
              | none =>
                rw [hg] at hok
                simp only [Except.ok.injEq] at hok
                exact Or.inr ⟨rfl, hok.symm⟩

/-- C6: on a table with zero subheader rows the Record Extractor fails
(the spec class ExtractionError) instead of producing a CourseRecord. -/
theorem no_subheader_fails (df : Df) (h : subheadersOf df = []) :
    isFailure (df_to_object df) = true := by
  rw [df_to_object]
  cases hhd : df.head? with
  | none => rfl
  | some row0 =>
    dsimp only []
    cases hc : getCol row0 0 with
    | none => rfl
    | some header =>
      dsimp only []
      rw [h]
      rfl

/-- C6 witness: a concrete one-row table with no "note" Grade cell makes
the extractor fail. -/
theorem no_subheader_fails_witness : isFailure (df_to_object exDfNoSub) = true :=
  no_subheader_fails exDfNoSub (by decide)

/-- C3: whenever the Record Extractor returns a record, the lab fields
are populated only if at least two subheader rows were found; in
particular on a table with exactly one subheader row both `lab_grade`
and `lab_data` are absent. -/
theorem lab_fields_need_second_subheader (df : Df) (r : CourseRecord)
    (hok : df_to_object df = .ok r) :
    2 ≤ (subheadersOf df).length ∨ (r.lab_grade = none ∧ r.lab_data = none) := by
  obtain ⟨row0, header, _, _, i0, h0, rest, hs, hcase⟩ := df_to_object_cases df r hok
  rcases hcase with ⟨hrest, rfl⟩ | ⟨i1, h1, rest2, hrest, hcase2⟩
  · exact Or.inr ⟨rfl, rfl⟩
  · left
    rw [hs, hrest]
    simp

/-- C3 witness: on a concrete one-subheader table the produced record
has no lab grade and no lab data. -/
theorem lab_fields_need_second_subheader_witness :
    2 ≤ (subheadersOf exDfOne).length
    ∨ (exRecOne.lab_grade = none ∧ exRecOne.lab_data = none) :=
  lab_fields_need_second_subheader exDfOne exRecOne (by decide)

/-- C2 (amended): on a table with exactly two subheader rows, both with
textual Header cells, and whose second subheader Header contains a match
of the grade pattern, the extractor produces exactly the rows strictly
between the two subheaders as course work and exactly the rows after the
second subheader as lab work; together the two sections are exactly the
rows after the first subheader with the second subheader row removed, so
among those rows none is omitted and none is duplicated. Rows strictly
between the header row and the first subheader, if any, belong to
neither section. -/
theorem two_subheader_partition (df : Df) (i0 i1 : Nat) (s0 s1 : String)
    (r : CourseRecord)
    (hsub : subheadersOf df = [(i0, some s0), (i1, some s1)])
    (hlab : (extractGrade s1).isSome = true)
    (hok : df_to_object df = .ok r) :
    r.course_data = sliceRows (i0 + 1) i1 (dropHeaderCol df)
    ∧ r.lab_data = some ((dropHeaderCol df).drop (i1 + 1))
    ∧ r.course_data ++ ((dropHeaderCol df).drop (i1 + 1))
        = ((dropHeaderCol df).drop (i0 + 1)).eraseIdx (i1 - (i0 + 1)) := by
  have hlt : i0 < i1 := by
    have hsub0 := hsub
    rw [subheadersOf] at hsub0
    have := subsFrom_cons_lt df 0 (i0, some s0) [(i1, some s1)] hsub0
      (i1, some s1) (List.mem_cons_self _ _)
    simpa using this
  obtain ⟨row0, header, hhd, hc, j0, g0, rest, hs, hcase⟩ := df_to_object_cases df r hok
  rw [hsub] at hs
  simp only [List.cons.injEq, Prod.mk.injEq, Option.some.injEq] at hs
  obtain ⟨⟨h1, h2⟩, h3⟩ := hs
  subst h1
  subst h2
  rcases hcase with ⟨hnil, _⟩ | ⟨i1x, h1x, rest2, hcons, hcase2⟩
  · rw [← h3] at hnil
    cases hnil
  · rw [← h3] at hcons
    simp only [List.cons.injEq, Prod.mk.injEq, Option.some.injEq] at hcons
    obtain ⟨⟨h4, h5⟩, h6⟩ := hcons
    subst h4
    subst h5
    rcases hcase2 with ⟨hg, rfl⟩ | ⟨hg, rfl⟩
    · refine ⟨rfl, rfl, ?_⟩
      show sliceRows (i0 + 1) i1 (dropHeaderCol df) ++ (dropHeaderCol df).drop (i1 + 1)
        = ((dropHeaderCol df).drop (i0 + 1)).eraseIdx (i1 - (i0 + 1))
      rw [List.eraseIdx_eq_take_drop_succ]
      congr 1
      · rw [sliceRows, List.drop_take]
      · rw [List.drop_drop]
        congr 1
        omega
    · rw [hg] at hlab
      cases hlab

/-- C2 witness: on a concrete five-row table with subheaders at
positions 1 and 3 and lab grade "5.5", the sections and the partition
equation are realized. -/
theorem two_subheader_partition_witness :
    exRecTwo.course_data = sliceRows 2 3 (dropHeaderCol exDfTwo)
    ∧ exRecTwo.lab_data = some ((dropHeaderCol exDfTwo).drop 4)
    ∧ exRecTwo.course_data ++ ((dropHeaderCol exDfTwo).drop 4)
        = ((dropHeaderCol exDfTwo).drop 2).eraseIdx 1 :=
  two_subheader_partition exDfTwo 1 3 "Cours 4.75" "Labo 5.5" exRecTwo
    (by decide) (by decide) (by decide)

/-- C2 counterexample: `exDfNoMatch` has exactly two subheader rows, but
the extractor returns a record with no `lab_data` at all, while the
claim requires the lab-work entries to be exactly the rows after the
second subheader (of which there is one). The claimed partition
therefore fails on this table. -/
theorem two_subheader_claim_counterexample :
    (subheadersOf exDfNoMatch).length = 2
    ∧ df_to_object exDfNoMatch = .ok exRecNoMatch
    ∧ exRecNoMatch.lab_data = none
    ∧ ((dropHeaderCol exDfNoMatch).drop 5).length = 1 := by decide

/-- C10: when at least two subheader rows exist, the lab grade of the
record is the first grade-pattern match of the second subheader Header,
the lab section is produced exactly when that pattern matches, and on no
match the record has no lab fields and its course data is every row
after the first subheader, the second subheader row included. -/
theorem second_subheader_no_match (df : Df) (i0 i1 : Nat) (s0 s1 : String)
    (rest : List (Nat × Option String)) (r : CourseRecord)
    (hsub : subheadersOf df = (i0, some s0) :: (i1, some s1) :: rest)
    (hok : df_to_object df = .ok r) :
    r.lab_grade = extractGrade s1
    ∧ r.lab_data.isSome = (extractGrade s1).isSome
    ∧ (extractGrade s1 = none →
        r.lab_grade = none ∧ r.lab_data = none
        ∧ r.course_data = (dropHeaderCol df).drop (i0 + 1)) := by
  obtain ⟨row0, header, hhd, hc, j0, g0, rest0, hs, hcase⟩ := df_to_object_cases df r hok
  rw [hsub] at hs
  simp only [List.cons.injEq, Prod.mk.injEq, Option.some.injEq] at hs
  obtain ⟨⟨h1, h2⟩, h3⟩ := hs
  subst h1
  subst h2
  rcases hcase with ⟨hnil, _⟩ | ⟨i1x, h1x, rest2, hcons, hcase2⟩
  · rw [← h3] at hnil
    cases hnil
  · rw [← h3] at hcons
    simp only [List.cons.injEq, Prod.mk.injEq, Option.some.injEq] at hcons
    obtain ⟨⟨h4, h5⟩, h6⟩ := hcons
    subst h4
    subst h5
    rcases hcase2 with ⟨hg, rfl⟩ | ⟨hg, rfl⟩
    · refine ⟨rfl, ?_, ?_⟩
      · show (some ((dropHeaderCol df).drop (i1 + 1))).isSome = (extractGrade s1).isSome
        rw [hg]
        rfl
      · intro hnone
        rw [hnone] at hg
        cases hg
    · refine ⟨hg.symm, ?_, fun _ => ⟨rfl, rfl, rfl⟩⟩
      show (none : Option Df).isSome = (extractGrade s1).isSome
      rw [hg]
      rfl

/-- C10 witness: on `exDfNoMatch` the second subheader Header "Labo
note" has no grade-pattern match, and the record indeed has no lab
fields and takes everything after the first subheader as course data. -/
theorem second_subheader_no_match_witness :
    exRecNoMatch.lab_grade = none ∧ exRecNoMatch.lab_data = none
    ∧ exRecNoMatch.course_data = (dropHeaderCol exDfNoMatch).drop (2 + 1) :=
  (second_subheader_no_match exDfNoMatch 2 4 "Cours 4.75" "Labo note" [] exRecNoMatch
    (by decide) (by decide)).2.2 (by decide)

/-- C7 (amended): the course identifier of a produced record is the
first field of row 0 Header text split at single space characters (the
prefix before the first space, which is empty when the Header starts
with a space and can retain a tab); when the Header text is empty the
identifier is null and no error is raised. -/
theorem course_token_amended (df : Df) (r : CourseRecord) (h : String)
    (hok : df_to_object df = .ok r) (hh : header0 df = some h) :
    r.course = courseOf h := by
  obtain ⟨row0, header, hhd, hc, i0, h0, rest, hs, hcase⟩ := df_to_object_cases df r hok
  have hheader : header = h := by
    rw [header0, hhd] at hh
    dsimp only [] at hh
    rw [hc] at hh
    exact Option.some.inj hh
  subst hheader
  rcases hcase with ⟨_, rfl⟩ | ⟨i1, h1, rest2, _, hcase2⟩
  · rfl
  · rcases hcase2 with ⟨_, rfl⟩ | ⟨_, rfl⟩ <;> rfl

/-- C7 witness: on a concrete table whose row-0 Header is the empty
string, the extractor succeeds and the course identifier is null. -/
theorem course_token_amended_witness :
    exRecEmptyHeader.course = courseOf "" ∧ courseOf "" = none :=
  ⟨course_token_amended exDfEmptyHeader exRecEmptyHeader ""
    (by decide) (by decide), by decide⟩

/-- C7 counterexample: on a table whose row-0 Header is "A\tB 4.5" the
code produces the course identifier "A\tB", which contains a whitespace
character, while the leading whitespace-delimited token of that Header
is "A". The extractor splits on the space character only, not on
whitespace. -/
theorem course_token_counterexample :
    df_to_object exDfTab = .ok exRecTab
    ∧ exRecTab.course = some "A\tB"
    ∧ leadingWhitespaceToken "A\tB 4.5" = some "A"
    ∧ ("A\tB".data.any Char.isWhitespace) = true := by decide

end Gaps
